import Mathlib

/-!
Shallow embedding of `dyndbmutex.py` (a DynamoDB-backed distributed mutex)
and proofs about its lock protocol.

The backing table maps a partition key `lockname` to a record with two
attributes, `expire_ts` and `holder`.  The three conditional operations of
`MutexTable` (`write_lock_item`, `clear_lock_item`, `prune_expired`) are
each a single DynamoDB `put_item` guarded by a `ConditionExpression`; the
`DynamoDbMutex` handle sequences them.  Time (`timestamp_millis()`) is
passed explicitly as an `Int` parameter; the store is an association list
from lock names to records, mirroring per-key item storage.
-/

namespace DynDbMutex

/-- Sentinel holder value meaning "unheld" (`NO_HOLDER = '__empty__'`). -/
def NO_HOLDER : String := "__empty__"

/-- One item of the Mutex table: the attributes other than the partition key. -/
structure LockRecord where
  expire_ts : Int
  holder : String
deriving DecidableEq, Repr

/-- The backing table state: an association list from `lockname` to its record. -/
abbrev Store := List (String × LockRecord)

/-- Look up the item stored under a lock name (first binding wins). -/
def lookupItem : Store → String → Option LockRecord
  | [], _ => none
  | (k, r) :: rest, lockname => if k = lockname then some r else lookupItem rest lockname

/-- Unconditionally write (create or fully replace) the item under a lock name. -/
def putItem : Store → String → LockRecord → Store
  | [], lockname, item => [(lockname, item)]
  | (k, r) :: rest, lockname, item =>
    if k = lockname then (lockname, item) :: rest
    else (k, r) :: putItem rest lockname item

/-- Semantics of `Attr("holder").eq(v)` over the existing item (false when absent). -/
def attrHolderEq (cur : Option LockRecord) (v : String) : Bool :=
  match cur with
  | none => false
  | some r => decide (r.holder = v)

/-- Semantics of `Attr("expire_ts").lt(v)` over the existing item (false when absent). -/
def attrExpireTsLt (cur : Option LockRecord) (v : Int) : Bool :=
  match cur with
  | none => false
  | some r => decide (r.expire_ts < v)

/-- Semantics of `Attr('lockname').not_exists()`: the item is absent. -/
def attrNotExists (cur : Option LockRecord) : Bool := cur.isNone

/-- Condition of `write_lock_item`:
`Attr("holder").eq(NO_HOLDER) | Attr('lockname').not_exists()`. -/
def acquireCond (cur : Option LockRecord) : Bool :=
  attrHolderEq cur NO_HOLDER || attrNotExists cur

/-- Condition of `clear_lock_item`:
`Attr("holder").eq(caller) | Attr('lockname').not_exists()`. -/
def releaseCond (caller : String) (cur : Option LockRecord) : Bool :=
  attrHolderEq cur caller || attrNotExists cur

/-- Condition of `prune_expired`:
`Attr("expire_ts").lt(now) | Attr('lockname').not_exists()`. -/
def pruneCond (now : Int) (cur : Option LockRecord) : Bool :=
  attrExpireTsLt cur now || attrNotExists cur

namespace MutexTable

/-- A conditional `put_item`: the write is applied only if the condition holds of
the existing item; the returned boolean is whether the predicate held (the store
raises `ConditionalCheckFailedException` otherwise, which the callers below turn
into `False`). -/
def put_item (s : Store) (lockname : String) (item : LockRecord)
    (cond : Option LockRecord → Bool) : Bool × Store :=
  if cond (lookupItem s lockname) then (true, putItem s lockname item) else (false, s)

/-- `MutexTable.write_lock_item(lockname, caller, waitms)`: acquire attempt.
Writes `{lockname, expire_ts = now + waitms, holder = caller}` under the
acquire condition; `now` stands for `timestamp_millis()` read at entry. -/
def write_lock_item (s : Store) (lockname caller : String) (waitms now : Int) :
    Bool × Store :=
  let expire_ts := now + waitms
  put_item s lockname ⟨expire_ts, caller⟩ acquireCond

/-- `MutexTable.clear_lock_item(lockname, caller)`: release attempt.
Writes `{lockname, expire_ts = 0, holder = NO_HOLDER}` under the release
condition. -/
def clear_lock_item (s : Store) (lockname caller : String) : Bool × Store :=
  put_item s lockname ⟨0, NO_HOLDER⟩ (releaseCond caller)

/-- `MutexTable.prune_expired(lockname, caller)`: stale-lease reset.
Writes `{lockname, expire_ts = 0, holder = NO_HOLDER}` under the prune
condition; `now` stands for `timestamp_millis()` read at entry.  The `caller`
argument is only logged by the source and does not influence the result. -/
def prune_expired (s : Store) (lockname caller : String) (now : Int) : Bool × Store :=
  put_item s lockname ⟨0, NO_HOLDER⟩ (pruneCond now)

end MutexTable

/-- Exceptions that `put_item` can raise, as the Python code distinguishes them:
`botocore.exceptions.ClientError` carries an error code string; anything else
(connection errors, etc.) is not a `ClientError`. -/
inductive PyError where
  | clientError (code : String)
  | otherError
deriving DecidableEq, Repr

/-- Outcome of one raw `put_item` call against the store. -/
inductive PutOutcome where
  | applied
  | raised (e : PyError)
deriving DecidableEq, Repr

/-- The `ClientError` code DynamoDB uses when a `ConditionExpression` fails. -/
def ConditionalCheckFailed : String := "ConditionalCheckFailedException"

/-- The `try/except botocore.exceptions.ClientError` wrapper shared verbatim by
`write_lock_item`, `clear_lock_item` and `prune_expired`: a caught `ClientError`
whose code is `ConditionalCheckFailedException` yields `return False`; a caught
`ClientError` with any other code falls through the `if` (the handler ends, the
exception is considered handled) and reaches `return True`; an exception that is
not a `ClientError` is not caught and propagates. -/
def handleConditionalPut : PutOutcome → Except PyError Bool
  | .applied => .ok true
  | .raised (.clientError code) =>
    if code = ConditionalCheckFailed then .ok false else .ok true
  | .raised .otherError => .error .otherError

/-- A raw conditional `put_item` in an environment that may inject a store-level
fault: with no fault, the predicate decides between an applied write and a
`ConditionalCheckFailedException`; a fault surfaces as the injected exception
with the store unchanged. -/
def put_item_raw (s : Store) (lockname : String) (item : LockRecord)
    (cond : Option LockRecord → Bool) (fault : Option PyError) : PutOutcome × Store :=
  match fault with
  | some e => (.raised e, s)
  | none =>
    if cond (lookupItem s lockname) then (.applied, putItem s lockname item)
    else (.raised (.clientError ConditionalCheckFailed), s)

/-- `write_lock_item` with its exception handler made explicit, in an environment
that may inject a store-level fault. -/
def write_lock_item_handled (s : Store) (lockname caller : String) (waitms now : Int)
    (fault : Option PyError) : Except PyError Bool × Store :=
  let o := put_item_raw s lockname ⟨now + waitms, caller⟩ acquireCond fault
  (handleConditionalPut o.1, o.2)

/-- `clear_lock_item` with its exception handler made explicit, in an environment
that may inject a store-level fault. -/
def clear_lock_item_handled (s : Store) (lockname caller : String)
    (fault : Option PyError) : Except PyError Bool × Store :=
  let o := put_item_raw s lockname ⟨0, NO_HOLDER⟩ (releaseCond caller) fault
  (handleConditionalPut o.1, o.2)

/-- `prune_expired` with its exception handler made explicit, in an environment
that may inject a store-level fault. -/
def prune_expired_handled (s : Store) (lockname caller : String) (now : Int)
    (fault : Option PyError) : Except PyError Bool × Store :=
  let o := put_item_raw s lockname ⟨0, NO_HOLDER⟩ (pruneCond now) fault
  (handleConditionalPut o.1, o.2)

/-- The process-local mutex handle: `DynamoDbMutex.__init__` stores the lock
name, the holder identity, the lease duration, and `locked = False`. -/
structure DynamoDbMutex where
  lockname : String
  holder : String
  timeoutms : Int
  locked : Bool
deriving DecidableEq, Repr

namespace DynamoDbMutex

/-- `DynamoDbMutex.lock()`: calls `prune_expired(lockname, holder)` discarding
its boolean, then `write_lock_item(lockname, holder, timeoutms)`, stores the
acquire result in `self.locked` and returns it.  The two methods each read the
clock once, hence the two time parameters. -/
def lock (m : DynamoDbMutex) (s : Store) (nowPrune nowWrite : Int) :
    Bool × DynamoDbMutex × Store :=
  let pr := MutexTable.prune_expired s m.lockname m.holder nowPrune
  let wr := MutexTable.write_lock_item pr.2 m.lockname m.holder m.timeoutms nowWrite
  (wr.1, { m with locked := wr.1 }, wr.2)

/-- `DynamoDbMutex.release()`: calls `clear_lock_item(lockname, holder)` and
sets `self.locked = not released`. -/
def release (m : DynamoDbMutex) (s : Store) : DynamoDbMutex × Store :=
  let rel := MutexTable.clear_lock_item s m.lockname m.holder
  ({ m with locked := !rel.1 }, rel.2)

end DynamoDbMutex

/-- Observable trace of executing `with mutex: body` under Python's
with-statement semantics.  `acquireRaised` records an `AcquireLockFailedError`
escaping from `__enter__`; `entered` records whether the protected section ran;
`bodyRaised` records the body's own exception propagating out of the statement
(`__exit__` returns `None`, which suppresses nothing); `releaseCalls` counts
invocations of `release()`. -/
structure WithTrace where
  acquireRaised : Bool
  entered : Bool
  bodyRaised : Bool
  releaseCalls : Nat
  m : DynamoDbMutex
  s : Store
deriving DecidableEq, Repr

/-- `DynamoDbMutex.__enter__`: calls `lock()`; raises `AcquireLockFailedError`
(the `.error` case, carrying the mutated state) when it returned `False`. -/
def enterMutex (m : DynamoDbMutex) (s : Store) (nowPrune nowWrite : Int) :
    Except (DynamoDbMutex × Store) (DynamoDbMutex × Store) :=
  let r := m.lock s nowPrune nowWrite
  if r.1 then .ok r.2 else .error r.2

/-- `DynamoDbMutex.__exit__`: calls `release()` (and returns `None`). -/
def exitMutex (m : DynamoDbMutex) (s : Store) : DynamoDbMutex × Store :=
  m.release s

/-- `with mutex: body` executed under Python semantics: if `__enter__` raises,
`__exit__` is never called and the body never runs; otherwise the body runs
(raising iff `bodyRaises`), `__exit__` runs exactly once on the way out, and a
body exception propagates because `__exit__` returns a falsy value. -/
def withMutex (m : DynamoDbMutex) (s : Store) (nowPrune nowWrite : Int)
    (bodyRaises : Bool) : WithTrace :=
  match enterMutex m s nowPrune nowWrite with
  | .error ms => ⟨true, false, false, 0, ms.1, ms.2⟩
  | .ok ms =>
    let ms2 := exitMutex ms.1 ms.2
    ⟨false, true, bodyRaises, 1, ms2.1, ms2.2⟩

/-! ### Basic lemmas about the store -/

theorem lookupItem_putItem_self (s : Store) (k : String) (r : LockRecord) :
    lookupItem (putItem s k r) k = some r := by
  induction s with
  | nil => simp [putItem, lookupItem]
  | cons hd tl ih =>
    obtain ⟨k', r'⟩ := hd
    by_cases h : k' = k
    · simp [putItem, h, lookupItem]
    · simp [putItem, h, lookupItem, ih]

theorem put_item_fst (s : Store) (lockname : String) (item : LockRecord)
    (cond : Option LockRecord → Bool) :
    (MutexTable.put_item s lockname item cond).1 = cond (lookupItem s lockname) := by
  unfold MutexTable.put_item
  by_cases h : cond (lookupItem s lockname) <;> simp [h]

theorem put_item_snd_of_true (s : Store) (lockname : String) (item : LockRecord)
    (cond : Option LockRecord → Bool) (h : cond (lookupItem s lockname) = true) :
    (MutexTable.put_item s lockname item cond).2 = putItem s lockname item := by
  unfold MutexTable.put_item
  simp [h]

theorem put_item_snd_of_false (s : Store) (lockname : String) (item : LockRecord)
    (cond : Option LockRecord → Bool) (h : cond (lookupItem s lockname) = false) :
    (MutexTable.put_item s lockname item cond).2 = s := by
  unfold MutexTable.put_item
  simp [h]

theorem write_lock_item_fst (s : Store) (lockname caller : String) (waitms now : Int) :
    (MutexTable.write_lock_item s lockname caller waitms now).1 =
      acquireCond (lookupItem s lockname) := by
  unfold MutexTable.write_lock_item
  exact put_item_fst s lockname ⟨now + waitms, caller⟩ acquireCond

theorem write_lock_item_lookup_of_true (s : Store) (lockname caller : String)
    (waitms now : Int) (h : acquireCond (lookupItem s lockname) = true) :
    lookupItem (MutexTable.write_lock_item s lockname caller waitms now).2 lockname =
      some ⟨now + waitms, caller⟩ := by
  unfold MutexTable.write_lock_item
  rw [put_item_snd_of_true s lockname ⟨now + waitms, caller⟩ acquireCond h]
  exact lookupItem_putItem_self s lockname ⟨now + waitms, caller⟩

theorem write_lock_item_snd_of_false (s : Store) (lockname caller : String)
    (waitms now : Int) (h : acquireCond (lookupItem s lockname) = false) :
    (MutexTable.write_lock_item s lockname caller waitms now).2 = s := by
  unfold MutexTable.write_lock_item
  exact put_item_snd_of_false s lockname ⟨now + waitms, caller⟩ acquireCond h

theorem clear_lock_item_fst (s : Store) (lockname caller : String) :
    (MutexTable.clear_lock_item s lockname caller).1 =
      releaseCond caller (lookupItem s lockname) := by
  unfold MutexTable.clear_lock_item
  exact put_item_fst s lockname ⟨0, NO_HOLDER⟩ (releaseCond caller)

theorem clear_lock_item_lookup_of_true (s : Store) (lockname caller : String)
    (h : releaseCond caller (lookupItem s lockname) = true) :
    lookupItem (MutexTable.clear_lock_item s lockname caller).2 lockname =
      some ⟨0, NO_HOLDER⟩ := by
  unfold MutexTable.clear_lock_item
  rw [put_item_snd_of_true s lockname ⟨0, NO_HOLDER⟩ (releaseCond caller) h]
  exact lookupItem_putItem_self s lockname ⟨0, NO_HOLDER⟩

theorem clear_lock_item_snd_of_false (s : Store) (lockname caller : String)
    (h : releaseCond caller (lookupItem s lockname) = false) :
    (MutexTable.clear_lock_item s lockname caller).2 = s := by
  unfold MutexTable.clear_lock_item
  exact put_item_snd_of_false s lockname ⟨0, NO_HOLDER⟩ (releaseCond caller) h

theorem prune_expired_fst (s : Store) (lockname caller : String) (now : Int) :
    (MutexTable.prune_expired s lockname caller now).1 =
      pruneCond now (lookupItem s lockname) := by
  unfold MutexTable.prune_expired
  exact put_item_fst s lockname ⟨0, NO_HOLDER⟩ (pruneCond now)

theorem prune_expired_lookup_of_true (s : Store) (lockname caller : String)
    (now : Int) (h : pruneCond now (lookupItem s lockname) = true) :
    lookupItem (MutexTable.prune_expired s lockname caller now).2 lockname =
      some ⟨0, NO_HOLDER⟩ := by
  unfold MutexTable.prune_expired
  rw [put_item_snd_of_true s lockname ⟨0, NO_HOLDER⟩ (pruneCond now) h]
  exact lookupItem_putItem_self s lockname ⟨0, NO_HOLDER⟩

theorem acquireCond_unheld : acquireCond (some ⟨0, NO_HOLDER⟩) = true := by
  simp [acquireCond, attrHolderEq, attrNotExists]

theorem pruneCond_unheld (now : Int) (h : 0 < now) :
    pruneCond now (some ⟨0, NO_HOLDER⟩) = true := by
  simp [pruneCond, attrExpireTsLt, attrNotExists, h]

/-- With no injected fault, the handler-explicit `write_lock_item` agrees with
the plain one: the predicate outcome becomes the returned boolean, and the
store is updated the same way. -/
theorem write_lock_item_handled_agrees (s : Store) (lockname caller : String)
    (waitms now : Int) :
    (write_lock_item_handled s lockname caller waitms now none).1 =
      .ok (MutexTable.write_lock_item s lockname caller waitms now).1 ∧
    (write_lock_item_handled s lockname caller waitms now none).2 =
      (MutexTable.write_lock_item s lockname caller waitms now).2 := by
  unfold write_lock_item_handled put_item_raw MutexTable.write_lock_item
    MutexTable.put_item
  by_cases h : acquireCond (lookupItem s lockname) <;>
    simp [h, handleConditionalPut, ConditionalCheckFailed]

/-! ### Claim theorems -/

/-- Claim C1: `write_lock_item` succeeds exactly when no record exists for the
lock name or the existing record's holder equals `NO_HOLDER`; on success the
record is fully overwritten with `{expire_ts = now + waitms, holder = caller}`,
and on failure it returns `false` with the store untouched. -/
theorem write_lock_item_correct (s : Store) (lockname caller : String)
    (waitms now : Int) :
    ((MutexTable.write_lock_item s lockname caller waitms now).1 = true ↔
      lookupItem s lockname = none ∨
        ∃ r, lookupItem s lockname = some r ∧ r.holder = NO_HOLDER) ∧
    ((MutexTable.write_lock_item s lockname caller waitms now).1 = true →
      lookupItem (MutexTable.write_lock_item s lockname caller waitms now).2 lockname =
        some ⟨now + waitms, caller⟩) ∧
    ((MutexTable.write_lock_item s lockname caller waitms now).1 = false →
      (MutexTable.write_lock_item s lockname caller waitms now).2 = s) := by
  unfold MutexTable.write_lock_item MutexTable.put_item
  cases h : lookupItem s lockname with
  | none =>
    simp [acquireCond, attrHolderEq, attrNotExists, h, lookupItem_putItem_self]
  | some r =>
    by_cases hh : r.holder = NO_HOLDER <;>
      simp [acquireCond, attrHolderEq, attrNotExists, h, hh, lookupItem_putItem_self]

/-- Claim C1, witness: acquiring a fresh lock name on the empty store succeeds
and stores exactly the written record. -/
theorem write_lock_item_correct_witness :
    (MutexTable.write_lock_item ([] : Store) "L" "A" 5 100).1 = true ∧
    lookupItem (MutexTable.write_lock_item ([] : Store) "L" "A" 5 100).2 "L" =
      some ⟨105, "A"⟩ := by
  have h := write_lock_item_correct ([] : Store) "L" "A" 5 100
  have ht : (MutexTable.write_lock_item ([] : Store) "L" "A" 5 100).1 = true :=
    h.1.mpr (Or.inl rfl)
  exact ⟨ht, h.2.1 ht⟩

/-- Claim C3: `clear_lock_item` succeeds exactly when no record exists for the
lock name (vacuous success) or the existing record's holder equals the caller;
on success the record is reset to `{expire_ts = 0, holder = NO_HOLDER}`, and a
record held by someone else makes it return `false` with the store untouched. -/
theorem clear_lock_item_correct (s : Store) (lockname caller : String) :
    ((MutexTable.clear_lock_item s lockname caller).1 = true ↔
      lookupItem s lockname = none ∨
        ∃ r, lookupItem s lockname = some r ∧ r.holder = caller) ∧
    ((MutexTable.clear_lock_item s lockname caller).1 = true →
      lookupItem (MutexTable.clear_lock_item s lockname caller).2 lockname =
        some ⟨0, NO_HOLDER⟩) ∧
    ((MutexTable.clear_lock_item s lockname caller).1 = false →
      (MutexTable.clear_lock_item s lockname caller).2 = s) := by
  unfold MutexTable.clear_lock_item MutexTable.put_item
  cases h : lookupItem s lockname with
  | none =>
    simp [releaseCond, attrHolderEq, attrNotExists, h, lookupItem_putItem_self]
  | some r =>
    by_cases hh : r.holder = caller <;>
      simp [releaseCond, attrHolderEq, attrNotExists, h, hh, lookupItem_putItem_self]

/-- Claim C3, witness: a release against a record held by a different holder
fails and leaves the store unchanged, while a release of an absent record is a
vacuous success. -/
theorem clear_lock_item_correct_witness :
    (MutexTable.clear_lock_item [("L", ⟨500, "A"⟩)] "L" "B").1 = false ∧
    (MutexTable.clear_lock_item [("L", ⟨500, "A"⟩)] "L" "B").2 =
      [("L", ⟨500, "A"⟩)] ∧
    (MutexTable.clear_lock_item ([] : Store) "L" "B").1 = true := by
  have h := clear_lock_item_correct [("L", ⟨500, "A"⟩)] "L" "B"
  have h0 := clear_lock_item_correct ([] : Store) "L" "B"
  have hf : (MutexTable.clear_lock_item [("L", ⟨500, "A"⟩)] "L" "B").1 = false := by
    cases hb : (MutexTable.clear_lock_item [("L", ⟨500, "A"⟩)] "L" "B").1 with
    | false => rfl
    | true =>
      rcases h.1.mp hb with hnone | ⟨r, hr, hh⟩
      · simp [lookupItem] at hnone
      · simp [lookupItem] at hr
        rw [← hr] at hh
        simp at hh
  exact ⟨hf, h.2.2 hf, h0.1.mpr (Or.inl rfl)⟩

/-- Claim C7: a repeated acquire by the current (non-sentinel, unexpired) holder
fails, because the acquire condition compares the stored holder with `NO_HOLDER`
only — it never compares it with the requesting caller, so the outcome boolean
is the same for every requesting caller. -/
theorem write_lock_item_not_reentrant (s : Store) (lockname : String)
    (r : LockRecord) (waitms now : Int)
    (hrec : lookupItem s lockname = some r) (hheld : r.holder ≠ NO_HOLDER)
    (hunexpired : now < r.expire_ts) :
    (MutexTable.write_lock_item s lockname r.holder waitms now).1 = false ∧
    ∀ caller1 caller2 : String,
      (MutexTable.write_lock_item s lockname caller1 waitms now).1 =
        (MutexTable.write_lock_item s lockname caller2 waitms now).1 := by
  constructor
  · unfold MutexTable.write_lock_item MutexTable.put_item
    simp [acquireCond, attrHolderEq, attrNotExists, hrec, hheld]
  · intro caller1 caller2
    unfold MutexTable.write_lock_item
    rw [put_item_fst, put_item_fst]

/-- Claim C7, witness: holder `A` has the lock of `"L"` until time `2000`; at
time `10` its own repeated acquire fails. -/
theorem write_lock_item_not_reentrant_witness :
    (MutexTable.write_lock_item [("L", ⟨2000, "A"⟩)] "L" "A" 5 10).1 = false := by
  have h := write_lock_item_not_reentrant [("L", ⟨2000, "A"⟩)] "L" ⟨2000, "A"⟩ 5 10
    (by simp [lookupItem]) (by simp [NO_HOLDER]) (by norm_num)
  exact h.1

/-- Claim C2, counterexample: a lock acquired at `t0 = 0` with lease `T = 1000`
gives the record `expire_ts = 1000`; the claim says any prune at `t ≥ t0 + T`
succeeds, but the condition `Attr("expire_ts").lt(now)` is strict, so the prune
at exactly `t = 1000` fails and leaves the record unchanged. -/
theorem prune_expired_at_exact_expiry :
    (1000 : Int) ≥ 0 + 1000 ∧
    lookupItem [("L", ⟨0 + 1000, "A"⟩)] "L" = some ⟨0 + 1000, "A"⟩ ∧
    (MutexTable.prune_expired [("L", ⟨0 + 1000, "A"⟩)] "L" "B" 1000).1 = false := by
  refine ⟨by norm_num, by simp [lookupItem], ?_⟩
  unfold MutexTable.prune_expired MutexTable.put_item
  simp [pruneCond, attrExpireTsLt, attrNotExists, lookupItem]

/-- Claim C2 (amended): for a lock acquired with lease `T` at `t0` and not
released (record `expire_ts = t0 + T`), every prune at `t ≤ t0 + T` returns
`false` and leaves the store unchanged, and every prune at `t > t0 + T`
succeeds, resetting the record to `{expire_ts = 0, holder = NO_HOLDER}`, after
which a fresh acquire by any holder succeeds. -/
theorem prune_expired_lease (s : Store) (lockname h' caller h2 : String)
    (t0 T t waitms now2 : Int)
    (hrec : lookupItem s lockname = some ⟨t0 + T, h'⟩) :
    (t ≤ t0 + T → MutexTable.prune_expired s lockname caller t = (false, s)) ∧
    (t0 + T < t →
      (MutexTable.prune_expired s lockname caller t).1 = true ∧
      lookupItem (MutexTable.prune_expired s lockname caller t).2 lockname =
        some ⟨0, NO_HOLDER⟩ ∧
      (MutexTable.write_lock_item (MutexTable.prune_expired s lockname caller t).2
        lockname h2 waitms now2).1 = true) := by
  constructor
  · intro hle
    unfold MutexTable.prune_expired MutexTable.put_item
    simp [pruneCond, attrExpireTsLt, attrNotExists, hrec]
    omega
  · intro hlt
    have hc : pruneCond t (lookupItem s lockname) = true := by
      simp [pruneCond, attrExpireTsLt, attrNotExists, hrec]
      omega
    have h1 : (MutexTable.prune_expired s lockname caller t).1 = true := by
      unfold MutexTable.prune_expired
      rw [put_item_fst, hc]
    have h2s : (MutexTable.prune_expired s lockname caller t).2 =
        putItem s lockname ⟨0, NO_HOLDER⟩ := by
      unfold MutexTable.prune_expired
      exact put_item_snd_of_true s lockname ⟨0, NO_HOLDER⟩ (pruneCond t) hc
    have hlook : lookupItem (MutexTable.prune_expired s lockname caller t).2 lockname =
        some ⟨0, NO_HOLDER⟩ := by
      rw [h2s]; exact lookupItem_putItem_self s lockname ⟨0, NO_HOLDER⟩
    refine ⟨h1, hlook, ?_⟩
    unfold MutexTable.write_lock_item
    rw [put_item_fst, hlook]
    simp [acquireCond, attrHolderEq, attrNotExists]

/-- Claim C2 (amended), witness: with the record `expire_ts = 0 + 1000`, a prune
at `t = 999` fails, and a prune at `t = 1001` succeeds and is followed by a
successful fresh acquire. -/
theorem prune_expired_lease_witness :
    MutexTable.prune_expired [("L", ⟨0 + 1000, "A"⟩)] "L" "B" 999 =
      (false, [("L", ⟨0 + 1000, "A"⟩)]) ∧
    (MutexTable.prune_expired [("L", ⟨0 + 1000, "A"⟩)] "L" "B" 1001).1 = true ∧
    (MutexTable.write_lock_item
      (MutexTable.prune_expired [("L", ⟨0 + 1000, "A"⟩)] "L" "B" 1001).2
      "L" "B" 30000 1001).1 = true := by
  have h999 := prune_expired_lease [("L", ⟨0 + 1000, "A"⟩)] "L" "A" "B" "B"
    0 1000 999 30000 1001 (by simp [lookupItem])
  have h1001 := prune_expired_lease [("L", ⟨0 + 1000, "A"⟩)] "L" "A" "B" "B"
    0 1000 1001 30000 1001 (by simp [lookupItem])
  exact ⟨h999.1 (by norm_num), (h1001.2 (by norm_num)).1, (h1001.2 (by norm_num)).2.2⟩

/-- Claim C5: `lock()` first prunes with the handle's lock name and holder,
ignores the prune boolean, then acquires on the pruned store with the handle's
lock name, holder and lease duration; the returned boolean is exactly the
acquire result, and the handle's `locked` flag is set to that same boolean. -/
theorem lock_sequences_prune_then_acquire (m : DynamoDbMutex) (s : Store)
    (nowPrune nowWrite : Int) :
    DynamoDbMutex.lock m s nowPrune nowWrite =
      ((MutexTable.write_lock_item
          (MutexTable.prune_expired s m.lockname m.holder nowPrune).2
          m.lockname m.holder m.timeoutms nowWrite).1,
        { m with locked :=
          (MutexTable.write_lock_item
            (MutexTable.prune_expired s m.lockname m.holder nowPrune).2
            m.lockname m.holder m.timeoutms nowWrite).1 },
        (MutexTable.write_lock_item
          (MutexTable.prune_expired s m.lockname m.holder nowPrune).2
          m.lockname m.holder m.timeoutms nowWrite).2) ∧
    (DynamoDbMutex.lock m s nowPrune nowWrite).2.1.locked =
      (DynamoDbMutex.lock m s nowPrune nowWrite).1 := by
  exact ⟨rfl, rfl⟩

/-- Claim C8: `release()` calls `clear_lock_item` with the handle's lock name
and holder and sets `locked` to the negation of its result; when the release
fails the flag is left `true` and the store (hence every other handle's view
and state) is unchanged. -/
theorem release_sets_locked_to_not_released (m : DynamoDbMutex) (s : Store) :
    DynamoDbMutex.release m s =
      ({ m with locked := !(MutexTable.clear_lock_item s m.lockname m.holder).1 },
        (MutexTable.clear_lock_item s m.lockname m.holder).2) ∧
    ((MutexTable.clear_lock_item s m.lockname m.holder).1 = false →
      (DynamoDbMutex.release m s).1.locked = true ∧
      (DynamoDbMutex.release m s).2 = s) := by
  refine ⟨rfl, fun hf => ⟨?_, ?_⟩⟩
  · show (!(MutexTable.clear_lock_item s m.lockname m.holder).1) = true
    rw [hf]
    rfl
  · show (MutexTable.clear_lock_item s m.lockname m.holder).2 = s
    unfold MutexTable.clear_lock_item at hf ⊢
    rw [put_item_fst] at hf
    exact put_item_snd_of_false s m.lockname ⟨0, NO_HOLDER⟩
      (releaseCond m.holder) hf

/-- Claim C8, witness: holder `A` holds `"L"`; handle `B`'s release fails,
leaves `B.locked = true`, and leaves the store unchanged. -/
theorem release_sets_locked_to_not_released_witness :
    (DynamoDbMutex.release ⟨"L", "B", 30000, true⟩ [("L", ⟨500, "A"⟩)]).1.locked =
      true ∧
    (DynamoDbMutex.release ⟨"L", "B", 30000, true⟩ [("L", ⟨500, "A"⟩)]).2 =
      [("L", ⟨500, "A"⟩)] := by
  have h := release_sets_locked_to_not_released ⟨"L", "B", 30000, true⟩
    [("L", ⟨500, "A"⟩)]
  have hf : (MutexTable.clear_lock_item [("L", ⟨500, "A"⟩)] "L" "B").1 = false := by
    unfold MutexTable.clear_lock_item MutexTable.put_item
    simp [releaseCond, attrHolderEq, attrNotExists, lookupItem]
  exact h.2 hf

/-- Claim C4: scoped acquisition enters the protected section exactly when
`lock()` returned `true`; when it returned `false`, `AcquireLockFailedError`
propagates, the section is never entered and `release()` is never called; when
the section is entered, `release()` is called exactly once whether the body
returns normally or raises, and a body exception still propagates. -/
theorem withMutex_scoped_acquisition (m : DynamoDbMutex) (s : Store)
    (nowPrune nowWrite : Int) (bodyRaises : Bool) :
    (withMutex m s nowPrune nowWrite bodyRaises).entered =
      (m.lock s nowPrune nowWrite).1 ∧
    (withMutex m s nowPrune nowWrite bodyRaises).acquireRaised =
      !(m.lock s nowPrune nowWrite).1 ∧
    ((withMutex m s nowPrune nowWrite bodyRaises).entered = false →
      (withMutex m s nowPrune nowWrite bodyRaises).releaseCalls = 0) ∧
    ((withMutex m s nowPrune nowWrite bodyRaises).entered = true →
      (withMutex m s nowPrune nowWrite bodyRaises).releaseCalls = 1) ∧
    (withMutex m s nowPrune nowWrite bodyRaises).bodyRaised =
      ((withMutex m s nowPrune nowWrite bodyRaises).entered && bodyRaises) := by
  unfold withMutex enterMutex
  cases h : (m.lock s nowPrune nowWrite).1 <;> simp [h]

/-- Claim C4, witness: on an empty store the lock is acquired, the section is
entered (here with a raising body) and release is called once; with the lock
held by another unexpired holder, acquisition raises, the section is never
entered, and release is never called. -/
theorem withMutex_scoped_acquisition_witness :
    (withMutex ⟨"L", "A", 100, false⟩ [] 0 0 true).entered = true ∧
    (withMutex ⟨"L", "A", 100, false⟩ [] 0 0 true).releaseCalls = 1 ∧
    (withMutex ⟨"L", "A", 100, false⟩ [] 0 0 true).bodyRaised = true ∧
    (withMutex ⟨"L", "X", 100, false⟩ [("L", ⟨900, "B"⟩)] 0 0 false).entered =
      false ∧
    (withMutex ⟨"L", "X", 100, false⟩ [("L", ⟨900, "B"⟩)] 0 0 false).acquireRaised =
      true ∧
    (withMutex ⟨"L", "X", 100, false⟩ [("L", ⟨900, "B"⟩)] 0 0 false).releaseCalls =
      0 := by
  have hok := withMutex_scoped_acquisition ⟨"L", "A", 100, false⟩ [] 0 0 true
  have hko := withMutex_scoped_acquisition ⟨"L", "X", 100, false⟩
    [("L", ⟨900, "B"⟩)] 0 0 false
  have h1 : (DynamoDbMutex.lock ⟨"L", "A", 100, false⟩ [] 0 0).1 = true := by decide
  have h2 : (DynamoDbMutex.lock ⟨"L", "X", 100, false⟩
      [("L", ⟨900, "B"⟩)] 0 0).1 = false := by decide
  refine ⟨?_, ?_, ?_, ?_, ?_, ?_⟩
  · rw [hok.1, h1]
  · exact hok.2.2.2.1 (by rw [hok.1, h1])
  · rw [hok.2.2.2.2, hok.1, h1]
    rfl
  · rw [hko.1, h2]
  · rw [hko.2.1, h2]
    rfl
  · exact hko.2.2.1 (by rw [hko.1, h2])

/-- Claim C9: two acquire attempts racing on one lock name serialize through the
store's per-item atomic conditional writes; in either serialization at most one
returns `true` (the loser's precondition fails), and once the winner releases, a
subsequent acquire succeeds. -/
theorem write_lock_item_mutual_exclusion (s : Store) (lockname h1 h2 : String)
    (w1 w2 n1 n2 w3 n3 : Int) (hh1 : h1 ≠ NO_HOLDER) :
    ¬((MutexTable.write_lock_item s lockname h1 w1 n1).1 = true ∧
      (MutexTable.write_lock_item (MutexTable.write_lock_item s lockname h1 w1 n1).2
        lockname h2 w2 n2).1 = true) ∧
    ((MutexTable.write_lock_item s lockname h1 w1 n1).1 = true →
      (MutexTable.write_lock_item
        (MutexTable.clear_lock_item
          (MutexTable.write_lock_item s lockname h1 w1 n1).2 lockname h1).2
        lockname h2 w3 n3).1 = true) := by
  constructor
  · rintro ⟨ha1, ha2⟩
    rw [write_lock_item_fst] at ha1
    have hlook := write_lock_item_lookup_of_true s lockname h1 w1 n1 ha1
    rw [write_lock_item_fst, hlook] at ha2
    simp [acquireCond, attrHolderEq, attrNotExists, hh1] at ha2
  · intro ha1
    rw [write_lock_item_fst] at ha1
    have hlook := write_lock_item_lookup_of_true s lockname h1 w1 n1 ha1
    have hrel : releaseCond h1
        (lookupItem (MutexTable.write_lock_item s lockname h1 w1 n1).2 lockname) =
          true := by
      rw [hlook]
      simp [releaseCond, attrHolderEq, attrNotExists]
    have hfree := clear_lock_item_lookup_of_true
      (MutexTable.write_lock_item s lockname h1 w1 n1).2 lockname h1 hrel
    rw [write_lock_item_fst, hfree]
    exact acquireCond_unheld

/-- Claim C9, witness: on the empty store, `A` then `B` race for `"L"`: `A`
wins, `B`'s attempt fails, and after `A` releases, `B`'s next attempt wins. -/
theorem write_lock_item_mutual_exclusion_witness :
    (MutexTable.write_lock_item ([] : Store) "L" "A" 10 0).1 = true ∧
    (MutexTable.write_lock_item (MutexTable.write_lock_item ([] : Store) "L" "A" 10 0).2
      "L" "B" 10 1).1 = false ∧
    (MutexTable.write_lock_item
      (MutexTable.clear_lock_item
        (MutexTable.write_lock_item ([] : Store) "L" "A" 10 0).2 "L" "A").2
      "L" "B" 10 2).1 = true := by
  have h := write_lock_item_mutual_exclusion ([] : Store) "L" "A" "B" 10 10 0 1 10 2
    (by simp [NO_HOLDER])
  have ha : (MutexTable.write_lock_item ([] : Store) "L" "A" 10 0).1 = true := by
    decide
  refine ⟨ha, ?_, h.2 ha⟩
  cases hb : (MutexTable.write_lock_item
      (MutexTable.write_lock_item ([] : Store) "L" "A" 10 0).2 "L" "B" 10 1).1 with
  | false => rfl
  | true => exact absurd ⟨ha, hb⟩ h.1

/-- Claim C10: a successful release or prune stores exactly
`{expire_ts = 0, holder = NO_HOLDER}`, a record expired at every positive
timestamp; an immediately following prune (at positive time) succeeds, and an
immediately following acquire by any holder succeeds. -/
theorem reset_record_is_free (s : Store) (lockname caller hp ha : String)
    (now waitms now2 now3 : Int) (hpos : 0 < now) :
    ((MutexTable.clear_lock_item s lockname caller).1 = true →
      lookupItem (MutexTable.clear_lock_item s lockname caller).2 lockname =
        some ⟨0, NO_HOLDER⟩ ∧
      (MutexTable.prune_expired (MutexTable.clear_lock_item s lockname caller).2
        lockname hp now).1 = true ∧
      (MutexTable.write_lock_item (MutexTable.clear_lock_item s lockname caller).2
        lockname ha waitms now2).1 = true) ∧
    ((MutexTable.prune_expired s lockname caller now3).1 = true →
      lookupItem (MutexTable.prune_expired s lockname caller now3).2 lockname =
        some ⟨0, NO_HOLDER⟩ ∧
      (MutexTable.prune_expired (MutexTable.prune_expired s lockname caller now3).2
        lockname hp now).1 = true ∧
      (MutexTable.write_lock_item (MutexTable.prune_expired s lockname caller now3).2
        lockname ha waitms now2).1 = true) := by
  constructor
  · intro hrel
    rw [clear_lock_item_fst] at hrel
    have hlook := clear_lock_item_lookup_of_true s lockname caller hrel
    refine ⟨hlook, ?_, ?_⟩
    · rw [prune_expired_fst, hlook]
      exact pruneCond_unheld now hpos
    · rw [write_lock_item_fst, hlook]
      exact acquireCond_unheld
  · intro hpr
    rw [prune_expired_fst] at hpr
    have hlook := prune_expired_lookup_of_true s lockname caller now3 hpr
    refine ⟨hlook, ?_, ?_⟩
    · rw [prune_expired_fst, hlook]
      exact pruneCond_unheld now hpos
    · rw [write_lock_item_fst, hlook]
      exact acquireCond_unheld

/-- Claim C10, witness: `A` releases the lock it holds on `"L"`; the stored
record is the reset one, an immediate prune at time `1` succeeds, and `B`'s
immediate acquire succeeds. -/
theorem reset_record_is_free_witness :
    (MutexTable.clear_lock_item [("L", ⟨900, "A"⟩)] "L" "A").1 = true ∧
    lookupItem (MutexTable.clear_lock_item [("L", ⟨900, "A"⟩)] "L" "A").2 "L" =
      some ⟨0, NO_HOLDER⟩ ∧
    (MutexTable.prune_expired (MutexTable.clear_lock_item [("L", ⟨900, "A"⟩)] "L" "A").2
      "L" "B" 1).1 = true ∧
    (MutexTable.write_lock_item (MutexTable.clear_lock_item [("L", ⟨900, "A"⟩)] "L" "A").2
      "L" "B" 10 1).1 = true := by
  have h := reset_record_is_free [("L", ⟨900, "A"⟩)] "L" "A" "B" "B" 1 10 1 0
    (by norm_num)
  have hrel : (MutexTable.clear_lock_item [("L", ⟨900, "A"⟩)] "L" "A").1 = true := by
    decide
  exact ⟨hrel, (h.1 hrel).1, (h.1 hrel).2.1, (h.1 hrel).2.2⟩

/-- Claim C6: for each of the three conditional operations, a failed predicate
(`ConditionalCheckFailedException`) is returned as the boolean `false`, and an
exception that is not a `ClientError` propagates; but a `ClientError` with any
other code — throttling (`ProvisionedThroughputExceededException`) or a missing
table (`ResourceNotFoundException`) — is caught, swallowed, and turned into the
success value `True`, instead of propagating to the caller. -/
theorem handled_operations_swallow_client_errors :
    (write_lock_item_handled [("L", ⟨500, "A"⟩)] "L" "B" 5 10 none).1 =
      .ok false ∧
    (clear_lock_item_handled [("L", ⟨500, "A"⟩)] "L" "B" none).1 = .ok false ∧
    (prune_expired_handled [("L", ⟨500, "A"⟩)] "L" "B" 10 none).1 = .ok false ∧
    (write_lock_item_handled ([] : Store) "L" "B" 5 10 (some .otherError)).1 =
      .error .otherError ∧
    (write_lock_item_handled ([] : Store) "L" "B" 5 10
      (some (.clientError "ProvisionedThroughputExceededException"))).1 =
        .ok true ∧
    (clear_lock_item_handled ([] : Store) "L" "B"
      (some (.clientError "ProvisionedThroughputExceededException"))).1 =
        .ok true ∧
    (prune_expired_handled ([] : Store) "L" "B" 10
      (some (.clientError "ResourceNotFoundException"))).1 = .ok true := by
  exact ⟨rfl, rfl, rfl, rfl, rfl, rfl, rfl⟩

end DynDbMutex
